import Mathlib

/-!
Shallow embedding of the local persistence and synchronization-state layer of
the wedding-gift-ledger application.

The store (IndexedDB object store "guests", keyed by `id`) is modelled as a
`List GuestRecordDB`; `put` is upsert by key, `get` is lookup by key.
Timestamps (`Date.now()`) are `Nat` parameters passed explicitly to each
operation that reads the clock.  Monetary amounts are `Int` (JS numbers used
as integers in the code).  The percentage computation
`Math.round((count / total) * 100)` runs in IEEE-754 binary64 arithmetic in
the program and is modelled bit-faithfully (`flScale` rounds a rational to
the nearest double, `jsPercent` chains the two rounded operations and the
exact `Math.round`); the fold and branch structure of every operation
follows the TypeScript source (src/lib/db.ts, the useDatabase hook and the
SyncStatus component) line by line.
-/

inductive Side where
  | groom
  | bride
deriving DecidableEq, Repr

inductive PaymentType where
  | cash
  | bank
deriving DecidableEq, Repr

inductive BankType where
  | ABA
  | ACLEDA
deriving DecidableEq, Repr

inductive SyncStatus where
  | synced
  | local
  | pending
  | error
deriving DecidableEq, Repr

/-- One persisted guest contribution record (interface `GuestRecordDB`). -/
structure GuestRecordDB where
  id : String
  name : String
  displayName : String
  side : Side
  amountRiel : Option Int
  paymentType : PaymentType
  bankType : Option BankType
  bankRef : Option String
  note : String
  updatedAt : Nat
  syncStatus : SyncStatus
  lastSyncedAt : Option Nat
  isCustomGuest : Bool
deriving DecidableEq, Repr

/-- A `Partial<Omit<GuestRecordDB, "id">>`: a named key overwrites the field
(`some v`, where for nullable fields `v` is itself an `Option`), an absent
key leaves it alone (`none`). -/
structure GuestUpdate where
  name : Option String
  displayName : Option String
  side : Option Side
  amountRiel : Option (Option Int)
  paymentType : Option PaymentType
  bankType : Option (Option BankType)
  bankRef : Option (Option String)
  note : Option String
  updatedAt : Option Nat
  syncStatus : Option SyncStatus
  lastSyncedAt : Option (Option Nat)
  isCustomGuest : Option Bool
deriving DecidableEq, Repr

/-- The partial update with no key present. -/
def GuestUpdate.empty : GuestUpdate :=
  ⟨none, none, none, none, none, none, none, none, none, none, none, none⟩

/-- JS object spread `{...existing, ...updates}`. -/
def applyUpdate (g : GuestRecordDB) (u : GuestUpdate) : GuestRecordDB where
  id := g.id
  name := u.name.getD g.name
  displayName := u.displayName.getD g.displayName
  side := u.side.getD g.side
  amountRiel := u.amountRiel.getD g.amountRiel
  paymentType := u.paymentType.getD g.paymentType
  bankType := u.bankType.getD g.bankType
  bankRef := u.bankRef.getD g.bankRef
  note := u.note.getD g.note
  updatedAt := u.updatedAt.getD g.updatedAt
  syncStatus := u.syncStatus.getD g.syncStatus
  lastSyncedAt := u.lastSyncedAt.getD g.lastSyncedAt
  isCustomGuest := u.isCustomGuest.getD g.isCustomGuest

/-- `db.get(STORE_NAME, id)`: lookup by primary key. -/
def getGuest (store : List GuestRecordDB) (id : String) : Option GuestRecordDB :=
  store.find? (fun g => g.id == id)

/-- `db.put(STORE_NAME, r)`: upsert keyed by `id`. -/
def putRecord (store : List GuestRecordDB) (r : GuestRecordDB) : List GuestRecordDB :=
  if store.any (fun g => g.id == r.id) then
    store.map (fun g => if g.id == r.id then r else g)
  else
    store ++ [r]

/-- `getAllGuests()`: the full record set. -/
def getAllGuests (store : List GuestRecordDB) : List GuestRecordDB :=
  store

/-- `saveGuestRecord(id, updates)`: throws when the id is absent (the store is
left untouched, nothing was written before the throw); otherwise merges the
partial update over the existing record, forces `id`, `updatedAt := now`,
`syncStatus := pending`, persists and returns the merged record. -/
def saveGuestRecord (store : List GuestRecordDB) (id : String) (updates : GuestUpdate)
    (now : Nat) : Except String GuestRecordDB × List GuestRecordDB :=
  match getGuest store id with
  | none => (Except.error ("Guest " ++ id ++ " not found"), store)
  | some existing =>
      let updated : GuestRecordDB :=
        { applyUpdate existing updates with
            id := id
            updatedAt := now
            syncStatus := SyncStatus.pending }
      (Except.ok updated, putRecord store updated)

/-- `createCustomGuest(name, side)`: id is built from the clock and a random
base-36 suffix (both explicit parameters here); the fresh record is `put`
with no collision check. -/
def createCustomGuest (store : List GuestRecordDB) (name : String) (side : Side)
    (now : Nat) (rand : String) : GuestRecordDB × List GuestRecordDB :=
  let id := "CUSTOM_" ++ toString now ++ "_" ++ rand
  let newGuest : GuestRecordDB :=
    { id := id
      name := name
      displayName := name
      side := side
      amountRiel := none
      paymentType := PaymentType.cash
      bankType := none
      bankRef := none
      note := ""
      updatedAt := now
      syncStatus := SyncStatus.pending
      lastSyncedAt := none
      isCustomGuest := true }
  (newGuest, putRecord store newGuest)

/-- One iteration of the `markAsSynced` loop: get, and if present set
`syncStatus := synced`, `lastSyncedAt := now`, put back. -/
def markSyncedStep (now : Nat) (store : List GuestRecordDB) (id : String) :
    List GuestRecordDB :=
  match getGuest store id with
  | none => store
  | some r =>
      putRecord store { r with syncStatus := SyncStatus.synced, lastSyncedAt := some now }

/-- `markAsSynced(ids)`. -/
def markAsSynced (store : List GuestRecordDB) (ids : List String) (now : Nat) :
    List GuestRecordDB :=
  ids.foldl (markSyncedStep now) store

/-- `markAsError(id)`: get, and if present set `syncStatus := error`, put back. -/
def markAsError (store : List GuestRecordDB) (id : String) : List GuestRecordDB :=
  match getGuest store id with
  | none => store
  | some r => putRecord store { r with syncStatus := SyncStatus.error }

structure BackupMetadata where
  totalRecords : Nat
  pendingSync : Nat
deriving DecidableEq, Repr

/-- The versioned backup snapshot (`BackupData`). -/
structure BackupData where
  version : Nat
  exportedAt : String
  guests : List GuestRecordDB
  metadata : BackupMetadata
deriving DecidableEq, Repr

/-- `exportBackup()`: the whole record set plus counts. -/
def exportBackup (store : List GuestRecordDB) (exportedAt : String) : BackupData where
  version := 1
  exportedAt := exportedAt
  guests := getAllGuests store
  metadata :=
    { totalRecords := (getAllGuests store).length
      pendingSync :=
        ((getAllGuests store).filter
          (fun g => g.syncStatus == SyncStatus.pending || g.syncStatus == SyncStatus.local)).length }

structure ImportResult where
  imported : Nat
  skipped : Nat
  errors : Nat
deriving DecidableEq, Repr

/-- One iteration of the `importBackup` loop: insert when the id is absent,
overwrite when the incoming `updatedAt` is strictly greater (status forced to
`pending` in both cases), otherwise skip. -/
def importStep (acc : List GuestRecordDB × ImportResult) (guest : GuestRecordDB) :
    List GuestRecordDB × ImportResult :=
  match getGuest acc.1 guest.id with
  | none =>
      (putRecord acc.1 { guest with syncStatus := SyncStatus.pending },
       { acc.2 with imported := acc.2.imported + 1 })
  | some existing =>
      if existing.updatedAt < guest.updatedAt then
        (putRecord acc.1 { guest with syncStatus := SyncStatus.pending },
         { acc.2 with imported := acc.2.imported + 1 })
      else
        (acc.1, { acc.2 with skipped := acc.2.skipped + 1 })

/-- `importBackup(data)`: fold the conflict rule over the incoming records.
The `errors` counter only counts storage-medium faults (the `catch` branch),
which the model has none of. -/
def importBackup (store : List GuestRecordDB) (data : BackupData) :
    List GuestRecordDB × ImportResult :=
  data.guests.foldl importStep (store, ⟨0, 0, 0⟩)

/-- JS truthiness fallback `o || d` on an optional string: absent and the
empty string both fall through to the default. -/
def jsOrString (o : Option String) (d : String) : String :=
  match o with
  | some s => if s = "" then d else s
  | none => d

structure BankInfo where
  type : BankType
  ref : String
deriving DecidableEq, Repr

/-- One entry of the legacy localStorage snapshot's `records` map.  The
`updatedAt` field models the stored ISO string after `new Date(...).getTime()`:
`none` covers an absent or empty (falsy) string, `some t` the parsed value. -/
structure LegacyRecord where
  displayName : Option String
  amountRiel : Option Int
  paymentType : Option PaymentType
  bank : Option BankInfo
  note : Option String
  updatedAt : Option Nat
deriving DecidableEq, Repr

/-- One iteration of the `migrateFromLocalStorage` records loop: when a store
record with the legacy id exists, overlay the legacy fields onto it
(`r.x || fallback` truthiness as in the source), force `syncStatus := pending`
and put it back; otherwise the entry is ignored. -/
def migrateRecordStep (now : Nat) (store : List GuestRecordDB)
    (entry : String × LegacyRecord) : List GuestRecordDB :=
  match getGuest store entry.1 with
  | none => store
  | some existing =>
      let r := entry.2
      putRecord store
        { existing with
            displayName := jsOrString r.displayName existing.displayName
            amountRiel := r.amountRiel
            paymentType := r.paymentType.getD PaymentType.cash
            bankType := r.bank.map (fun b => b.type)
            bankRef :=
              match r.bank with
              | some b => if b.ref = "" then none else some b.ref
              | none => none
            note := jsOrString r.note ""
            updatedAt := r.updatedAt.getD now
            syncStatus := SyncStatus.pending }

/-- The global sync state consumed by the presentation layer (`SyncState`). -/
structure SyncState where
  isOnline : Bool
  isSyncing : Bool
  lastSyncTime : Option Nat
  pendingCount : Nat
  errorCount : Nat
deriving DecidableEq, Repr

/-- The five mutually exclusive presentation outcomes of the SyncStatus
component's `getStatus` if-chain. -/
inductive StatusKind where
  | offline
  | error
  | syncing
  | pending
  | idle
deriving DecidableEq, Repr

/-- `getStatus()` of the SyncStatus component: first matching rule wins, in
source order. -/
def getStatus (isOnline : Bool) (s : SyncState) : StatusKind :=
  if !isOnline then StatusKind.offline
  else if 0 < s.errorCount then StatusKind.error
  else if s.isSyncing then StatusKind.syncing
  else if 0 < s.pendingCount then StatusKind.pending
  else StatusKind.idle

/-- The `pendingGuests` partition of the useDatabase hook:
`amountRiel === null || amountRiel === 0`. -/
def pendingGuests (gs : List GuestRecordDB) : List GuestRecordDB :=
  gs.filter (fun g =>
    match g.amountRiel with
    | none => true
    | some a => a == 0)

/-- The `recordedGuests` partition of the useDatabase hook:
`amountRiel !== null && amountRiel > 0`. -/
def recordedGuests (gs : List GuestRecordDB) : List GuestRecordDB :=
  gs.filter (fun g =>
    match g.amountRiel with
    | none => false
    | some a => decide (0 < a))

/-- Accumulator of the `totals` forEach loop. -/
structure TotalsAcc where
  totalCash : Int
  totalBank : Int
  cashCount : Nat
  bankCount : Nat
deriving DecidableEq, Repr

/-- One iteration of the `totals` loop: a record with a strictly positive
amount accumulates into the cash or bank bucket by payment type. -/
def totalsStep (acc : TotalsAcc) (g : GuestRecordDB) : TotalsAcc :=
  match g.amountRiel with
  | none => acc
  | some a =>
      if 0 < a then
        match g.paymentType with
        | PaymentType.cash =>
            { acc with totalCash := acc.totalCash + a, cashCount := acc.cashCount + 1 }
        | PaymentType.bank =>
            { acc with totalBank := acc.totalBank + a, bankCount := acc.bankCount + 1 }
      else acc

/-- The SPEC's percentage formula, from its words: `round(100 * c / n)`
computed on the exact rational value (round-half-up, `n > 0`).  This is a
second definition kept for comparison with the program's float computation
`jsPercent` below; the two differ at tie-adjacent inputs such as `c = 23`,
`n = 40`. -/
def jsRoundPct (c n : Nat) : Nat :=
  (200 * c + n) / (2 * n)

/-- Fuel-driven binary search for `e` with `2 ^ e ≤ a / b < 2 ^ (e + 1)`
(`a, b > 0`); the fuel covers far beyond the binary64 exponent range. -/
def floorLog2Aux : Nat → Nat → Nat → ℤ → ℤ
  | 0, _, _, e => e
  | fuel + 1, a, b, e =>
      if a < b then floorLog2Aux fuel (a * 2) b (e - 1)
      else if 2 * b ≤ a then floorLog2Aux fuel a (2 * b) (e + 1)
      else e

def floorLog2 (a b : Nat) : ℤ :=
  floorLog2Aux 4200 a b 0

/-- Round the rational `a / b` (`b > 0`) to the nearest integer with ties to
even — the IEEE-754 default rounding applied to a scaled significand. -/
def rne (a b : Nat) : Nat :=
  let q := a / b
  let r := a % b
  if 2 * r < b then q
  else if b < 2 * r then q + 1
  else if q % 2 = 0 then q else q + 1

/-- Round the non-negative rational `a / b` to the nearest IEEE-754 binary64
value (53-bit significand, round-to-nearest-ties-even), returned as a dyadic
pair `(m, e)` with value `m * 2 ^ e`.  The exponent is unbounded, which
coincides with binary64 on the normal range — all values reachable here
(quotients of small counts and their products with 100) lie in it. -/
def flScale (a b : Nat) : Nat × ℤ :=
  if a = 0 then (0, 0)
  else
    let e := floorLog2 a b
    if e ≤ 52 then (rne (a * 2 ^ (52 - e).toNat) b, e - 52)
    else (rne a (b * 2 ^ (e - 52).toNat), e - 52)

/-- ECMA `Math.round` on a non-negative value `m / d`: nearest integer, ties
toward `+∞`, i.e. `⌊m / d + 1 / 2⌋`. -/
def mathRoundPos (m d : Nat) : Nat :=
  (2 * m + d) / (2 * d)

/-- The program's `Math.round((c / n) * 100)` in IEEE-754 binary64
arithmetic: the counts `c`, `n` and the literal `100` are exactly
representable, so the division `c / n` rounds to a double, the
multiplication by 100 rounds again, and `Math.round` acts exactly on the
resulting double's value.  Diverges from the exact formula `jsRoundPct` at
tie-adjacent inputs: `jsPercent 23 40 = 57` while `jsRoundPct 23 40 = 58`. -/
def jsPercent (c n : Nat) : Nat :=
  let p1 := flScale c n
  let p2 :=
    if 0 ≤ p1.2 then flScale (p1.1 * 100 * 2 ^ p1.2.toNat) 1
    else flScale (p1.1 * 100) (2 ^ (-p1.2).toNat)
  if 0 ≤ p2.2 then p2.1 * 2 ^ p2.2.toNat
  else mathRoundPos p2.1 (2 ^ (-p2.2).toNat)

/-- The derived financial statistics returned by `totals`. -/
structure Totals where
  totalCash : Int
  totalBank : Int
  cashCount : Nat
  bankCount : Nat
  grandTotal : Int
  contributorCount : Nat
  cashPercent : Nat
  bankPercent : Nat
deriving DecidableEq, Repr

/-- The `totals` memo of the useDatabase hook. -/
def computeTotals (gs : List GuestRecordDB) : Totals :=
  let acc := gs.foldl totalsStep ⟨0, 0, 0, 0⟩
  let contributorCount := acc.cashCount + acc.bankCount
  { totalCash := acc.totalCash
    totalBank := acc.totalBank
    cashCount := acc.cashCount
    bankCount := acc.bankCount
    grandTotal := acc.totalCash + acc.totalBank
    contributorCount := contributorCount
    cashPercent :=
      if 0 < contributorCount then jsPercent acc.cashCount contributorCount else 0
    bankPercent :=
      if 0 < contributorCount then jsPercent acc.bankCount contributorCount else 0 }

/-- A record counts as a contributor when its amount is non-null and
strictly positive. -/
def isContributor (g : GuestRecordDB) : Bool :=
  match g.amountRiel with
  | none => false
  | some a => decide (0 < a)

/-- The amount of a contributing record (0 for a null amount). -/
def contribAmount (g : GuestRecordDB) : Int :=
  match g.amountRiel with
  | none => 0
  | some a => a

/-- The bank-field invariant of the spec's data model: bank fields are
null/absent whenever `paymentType = cash` (equivalently, non-null only under
bank transfer, there being exactly two payment types). -/
def bankFieldsOk (g : GuestRecordDB) : Prop :=
  g.paymentType = PaymentType.cash → g.bankType = none ∧ g.bankRef = none

/-- Shared builder for concrete test records (groom-side, empty note, no
lastSyncedAt, not custom). -/
def gRec (id : String) (amount : Option Int) (pt : PaymentType) (bt : Option BankType)
    (br : Option String) (upd : Nat) (st : SyncStatus) : GuestRecordDB :=
  ⟨id, "A", "A", Side.groom, amount, pt, bt, br, "", upd, st, none, false⟩

/-! ## Helper lemmas about the keyed store -/

theorem getGuest_id {s : List GuestRecordDB} {i : String} {g : GuestRecordDB}
    (h : getGuest s i = some g) : g.id = i := by
  have hp := List.find?_some h
  simpa using hp

theorem getGuest_mem {s : List GuestRecordDB} {i : String} {g : GuestRecordDB}
    (h : getGuest s i = some g) : g ∈ s :=
  List.mem_of_find?_eq_some h

theorem getGuest_putRecord (s : List GuestRecordDB) (r : GuestRecordDB) :
    getGuest (putRecord s r) r.id = some r := by
  unfold putRecord
  by_cases hany : s.any (fun g => g.id == r.id)
  · simp only [hany, if_true]
    induction s with
    | nil => simp at hany
    | cons h t ih =>
        by_cases hh : h.id == r.id
        · simp [getGuest, List.find?, hh]
        · have hany' : t.any (fun g => g.id == r.id) := by
            simpa [List.any_cons, hh] using hany
          have := ih hany'
          simpa [getGuest, List.find?, hh] using this
  · have hany' : (s.any fun g => g.id == r.id) = false := by
      simpa using hany
    rw [hany']
    simp only [Bool.false_eq_true, if_false]
    have hnone : getGuest s r.id = none := by
      unfold getGuest
      rw [List.find?_eq_none]
      intro g hg
      intro hgid
      exact hany (List.any_eq_true.mpr ⟨g, hg, hgid⟩)
    unfold getGuest at hnone ⊢
    rw [List.find?_append, hnone]
    simp [List.find?]

theorem getGuest_self_of_nodup {s : List GuestRecordDB}
    (hnd : (s.map (fun g => g.id)).Nodup) :
    ∀ g ∈ s, getGuest s g.id = some g := by
  induction s with
  | nil => intro g hg; simp at hg
  | cons h t ih =>
      intro g hg
      rcases List.mem_cons.mp hg with rfl | hgt
      · simp [getGuest, List.find?]
      · have hne : ¬(h.id == g.id) := by
          intro heq
          have : g.id ∈ t.map (fun x => x.id) := List.mem_map_of_mem _ hgt
          have hnotin := (List.nodup_cons.mp hnd).1
          exact hnotin (by simpa [eq_of_beq heq] using this)
        have hndt := (List.nodup_cons.mp hnd).2
        have := ih hndt g hgt
        simpa [getGuest, List.find?, hne] using this

/-! ## Claims -/

/-- Claim C3: for every id not present in the store and every partial update,
`save(id, partialUpdate)` fails with a NotFound error surfaced to the caller
and never creates a record: the store contents are unchanged after the failed
call. -/
theorem save_missing_id_fails (store : List GuestRecordDB) (id : String)
    (u : GuestUpdate) (now : Nat) (h : getGuest store id = none) :
    saveGuestRecord store id u now =
      (Except.error ("Guest " ++ id ++ " not found"), store) := by
  simp [saveGuestRecord, h]

theorem save_missing_id_fails_witness :
    getGuest [] "G1" = none ∧
      saveGuestRecord [] "G1" GuestUpdate.empty 7 =
        (Except.error ("Guest " ++ "G1" ++ " not found"), []) :=
  ⟨rfl, save_missing_id_fails [] "G1" GuestUpdate.empty 7 rfl⟩

/-- Claim C4: for every record present in the store and every partial update,
`save(id, partialUpdate)` persists and returns the merge of the update over
the existing record: `id` unchanged, `updatedAt` set to the current time and
`syncStatus` forced to `pending` regardless of prior status (even when the
update names them), and every field not named by the update keeps its
existing value. -/
theorem save_merge_spec (store : List GuestRecordDB) (id : String) (u : GuestUpdate)
    (now : Nat) (existing : GuestRecordDB) (h : getGuest store id = some existing) :
    ∃ rec : GuestRecordDB,
      (saveGuestRecord store id u now).1 = Except.ok rec ∧
      (saveGuestRecord store id u now).2 = putRecord store rec ∧
      getGuest (saveGuestRecord store id u now).2 id = some rec ∧
      rec.id = id ∧
      rec.updatedAt = now ∧
      rec.syncStatus = SyncStatus.pending ∧
      rec.name = u.name.getD existing.name ∧
      rec.displayName = u.displayName.getD existing.displayName ∧
      rec.side = u.side.getD existing.side ∧
      rec.amountRiel = u.amountRiel.getD existing.amountRiel ∧
      rec.paymentType = u.paymentType.getD existing.paymentType ∧
      rec.bankType = u.bankType.getD existing.bankType ∧
      rec.bankRef = u.bankRef.getD existing.bankRef ∧
      rec.note = u.note.getD existing.note ∧
      rec.lastSyncedAt = u.lastSyncedAt.getD existing.lastSyncedAt ∧
      rec.isCustomGuest = u.isCustomGuest.getD existing.isCustomGuest := by
  refine ⟨{ applyUpdate existing u with
              id := id, updatedAt := now, syncStatus := SyncStatus.pending },
          ?_, ?_, ?_, rfl, rfl, rfl, rfl, rfl, rfl, rfl, rfl, rfl, rfl, rfl, rfl, rfl⟩
  · simp [saveGuestRecord, h]
  · simp [saveGuestRecord, h]
  · simp only [saveGuestRecord, h]
    exact getGuest_putRecord store _

theorem save_merge_spec_witness :
    getGuest [gRec "G1" none PaymentType.cash none none 3 SyncStatus.local] "G1" =
      some (gRec "G1" none PaymentType.cash none none 3 SyncStatus.local) ∧
    ∃ rec : GuestRecordDB,
      (saveGuestRecord [gRec "G1" none PaymentType.cash none none 3 SyncStatus.local] "G1"
          GuestUpdate.empty 9).1 = Except.ok rec ∧
      (saveGuestRecord [gRec "G1" none PaymentType.cash none none 3 SyncStatus.local] "G1"
          GuestUpdate.empty 9).2 = putRecord
            [gRec "G1" none PaymentType.cash none none 3 SyncStatus.local] rec ∧
      getGuest (saveGuestRecord [gRec "G1" none PaymentType.cash none none 3 SyncStatus.local]
          "G1" GuestUpdate.empty 9).2 "G1" = some rec ∧
      rec.id = "G1" ∧
      rec.updatedAt = 9 ∧
      rec.syncStatus = SyncStatus.pending ∧
      rec.name = GuestUpdate.empty.name.getD "A" ∧
      rec.displayName = GuestUpdate.empty.displayName.getD "A" ∧
      rec.side = GuestUpdate.empty.side.getD Side.groom ∧
      rec.amountRiel = GuestUpdate.empty.amountRiel.getD none ∧
      rec.paymentType = GuestUpdate.empty.paymentType.getD PaymentType.cash ∧
      rec.bankType = GuestUpdate.empty.bankType.getD none ∧
      rec.bankRef = GuestUpdate.empty.bankRef.getD none ∧
      rec.note = GuestUpdate.empty.note.getD "" ∧
      rec.lastSyncedAt = GuestUpdate.empty.lastSyncedAt.getD none ∧
      rec.isCustomGuest = GuestUpdate.empty.isCustomGuest.getD false := by
  refine ⟨by decide, ?_⟩
  simpa [gRec, GuestUpdate.empty] using
    save_merge_spec [gRec "G1" none PaymentType.cash none none 3 SyncStatus.local] "G1"
      GuestUpdate.empty 9 (gRec "G1" none PaymentType.cash none none 3 SyncStatus.local)
      (by decide)

/-- Claim C2: single-record conflict rule of `importBackup`: an incoming
record with an id absent from the store is inserted with `syncStatus` forced
to `pending` and counted as imported; against an existing record it
overwrites (status forced to `pending`, counted as imported) iff the incoming
`updatedAt` is strictly greater, and otherwise — equal timestamps included —
the store is untouched and the record is counted as skipped. -/
theorem import_conflict_rule :
    (∀ (store : List GuestRecordDB) (res : ImportResult) (guest : GuestRecordDB),
      getGuest store guest.id = none →
        importStep (store, res) guest =
          (putRecord store { guest with syncStatus := SyncStatus.pending },
           { res with imported := res.imported + 1 })) ∧
    (∀ (store : List GuestRecordDB) (res : ImportResult) (guest existing : GuestRecordDB),
      getGuest store guest.id = some existing →
      existing.updatedAt < guest.updatedAt →
        importStep (store, res) guest =
          (putRecord store { guest with syncStatus := SyncStatus.pending },
           { res with imported := res.imported + 1 })) ∧
    (∀ (store : List GuestRecordDB) (res : ImportResult) (guest existing : GuestRecordDB),
      getGuest store guest.id = some existing →
      ¬ existing.updatedAt < guest.updatedAt →
        importStep (store, res) guest =
          (store, { res with skipped := res.skipped + 1 })) := by
  refine ⟨?_, ?_, ?_⟩
  · intro store res guest h
    simp [importStep, h]
  · intro store res guest existing h hlt
    simp [importStep, h, hlt]
  · intro store res guest existing h hnlt
    simp [importStep, h, hnlt]

theorem import_conflict_rule_witness :
    (getGuest [gRec "G1" none PaymentType.cash none none 10 SyncStatus.synced] "G1" =
       some (gRec "G1" none PaymentType.cash none none 10 SyncStatus.synced) ∧
     ¬ (10 : Nat) < 10 ∧
     importStep ([gRec "G1" none PaymentType.cash none none 10 SyncStatus.synced], ⟨0, 0, 0⟩)
         (gRec "G1" none PaymentType.cash none none 10 SyncStatus.synced) =
       ([gRec "G1" none PaymentType.cash none none 10 SyncStatus.synced], ⟨0, 1, 0⟩)) ∧
    (getGuest [] "G1" = none ∧
     importStep (([] : List GuestRecordDB), ⟨0, 0, 0⟩)
         (gRec "G1" none PaymentType.cash none none 10 SyncStatus.synced) =
       ([gRec "G1" none PaymentType.cash none none 10 SyncStatus.pending], ⟨1, 0, 0⟩)) := by
  refine ⟨⟨by decide, by decide, ?_⟩, rfl, ?_⟩
  · simpa using import_conflict_rule.2.2
      [gRec "G1" none PaymentType.cash none none 10 SyncStatus.synced] ⟨0, 0, 0⟩
      (gRec "G1" none PaymentType.cash none none 10 SyncStatus.synced)
      (gRec "G1" none PaymentType.cash none none 10 SyncStatus.synced)
      (by decide) (by decide)
  · simpa using import_conflict_rule.1 [] ⟨0, 0, 0⟩
      (gRec "G1" none PaymentType.cash none none 10 SyncStatus.synced) rfl

/-- Claim C8: sync-state presentation is decided by the first matching rule
in the order offline > error present > actively syncing > pending present >
idle; in particular an offline state with pending records shows offline, and
an online state with errors shows error even when pending records exist. -/
theorem sync_status_precedence :
    (∀ s : SyncState, getStatus false s = StatusKind.offline) ∧
    (∀ s : SyncState, 0 < s.errorCount → getStatus true s = StatusKind.error) ∧
    (∀ s : SyncState, s.errorCount = 0 → s.isSyncing = true →
      getStatus true s = StatusKind.syncing) ∧
    (∀ s : SyncState, s.errorCount = 0 → s.isSyncing = false → 0 < s.pendingCount →
      getStatus true s = StatusKind.pending) ∧
    (∀ s : SyncState, s.errorCount = 0 → s.isSyncing = false → s.pendingCount = 0 →
      getStatus true s = StatusKind.idle) := by
  refine ⟨?_, ?_, ?_, ?_, ?_⟩
  · intro s; simp [getStatus]
  · intro s h; simp [getStatus, h]
  · intro s h hs; simp [getStatus, h, hs]
  · intro s h hs hp; simp [getStatus, h, hs, hp]
  · intro s h hs hp; simp [getStatus, h, hs, hp]

theorem sync_status_precedence_witness :
    getStatus false ⟨false, false, none, 3, 0⟩ = StatusKind.offline ∧
    (0 < (2 : Nat) ∧ getStatus true ⟨true, true, none, 3, 2⟩ = StatusKind.error) :=
  ⟨sync_status_precedence.1 ⟨false, false, none, 3, 0⟩,
   by decide,
   sync_status_precedence.2.1 ⟨true, true, none, 3, 2⟩ (by decide)⟩

/-- Folding the import conflict rule over records that are all already in the
store with identical timestamps leaves the store untouched and only counts
skips. -/
theorem foldl_importStep_self (store : List GuestRecordDB) (l : List GuestRecordDB)
    (k : Nat) (hsub : ∀ g ∈ l, getGuest store g.id = some g) :
    l.foldl importStep (store, ⟨0, k, 0⟩) = (store, ⟨0, k + l.length, 0⟩) := by
  induction l generalizing k with
  | nil => simp
  | cons g l ih =>
      have hg := hsub g (List.mem_cons_self g l)
      have hstep : importStep (store, (⟨0, k, 0⟩ : ImportResult)) g =
          (store, ⟨0, k + 1, 0⟩) := by
        simp [importStep, hg]
      rw [List.foldl_cons, hstep,
        ih (k + 1) (fun x hx => hsub x (List.mem_cons_of_mem _ hx))]
      simp only [List.length_cons, Prod.mk.injEq, ImportResult.mk.injEq, true_and, and_true]
      omega

/-- Claim C1 (amended): importing the export of an untouched store changes
nothing at all — every record has an equal `updatedAt` against itself and is
therefore skipped by the strictly-greater conflict rule; no `syncStatus` is
reset to `pending`, and the result counts zero imports and a skip per
record.  (Stated for stores with key-unique records, the only states the
keyed store produces.) -/
theorem export_import_roundtrip (store : List GuestRecordDB) (t : String)
    (hnd : (store.map (fun g => g.id)).Nodup) :
    importBackup store (exportBackup store t) = (store, ⟨0, store.length, 0⟩) := by
  have h := foldl_importStep_self store store 0 (getGuest_self_of_nodup hnd)
  simp only [Nat.zero_add] at h
  simpa [importBackup, exportBackup, getAllGuests] using h

/-- Claim C1, counterexample to the claim as stated: after an
export-then-import round trip against an untouched one-record store whose
record is `synced`, the record's `syncStatus` is still `synced`, not
`pending`, and the import reports one skip. -/
theorem export_import_roundtrip_cex :
    (importBackup [gRec "G1" none PaymentType.cash none none 10 SyncStatus.synced]
        (exportBackup [gRec "G1" none PaymentType.cash none none 10 SyncStatus.synced]
          "2024-01-01")) =
      ([gRec "G1" none PaymentType.cash none none 10 SyncStatus.synced], ⟨0, 1, 0⟩) ∧
    (gRec "G1" none PaymentType.cash none none 10 SyncStatus.synced).syncStatus ≠
      SyncStatus.pending := by
  decide

theorem export_import_roundtrip_witness :
    (([gRec "G1" none PaymentType.cash none none 10 SyncStatus.local].map
        (fun g => g.id)).Nodup) ∧
    importBackup [gRec "G1" none PaymentType.cash none none 10 SyncStatus.local]
        (exportBackup [gRec "G1" none PaymentType.cash none none 10 SyncStatus.local] "t") =
      ([gRec "G1" none PaymentType.cash none none 10 SyncStatus.local], ⟨0, 1, 0⟩) := by
  refine ⟨by decide, ?_⟩
  simpa using export_import_roundtrip
    [gRec "G1" none PaymentType.cash none none 10 SyncStatus.local] "t" (by decide)

/-- Replacing the (unique, by `Nodup`) record found under a key by a record
that agrees on `f` leaves the `f`-image of the list unchanged. -/
theorem map_replace_of_found {α : Type} (f : GuestRecordDB → α) :
    ∀ (s : List GuestRecordDB) (r r' : GuestRecordDB),
      getGuest s r'.id = some r → f r' = f r → (s.map (fun g => g.id)).Nodup →
      (s.map (fun g => if g.id == r'.id then r' else g)).map f = s.map f := by
  intro s
  induction s with
  | nil => intro r r' hfind hf hnd; simp [getGuest] at hfind
  | cons h t ih =>
      intro r r' hfind hf hnd
      by_cases hh : (h.id == r'.id) = true
      · have hr : r = h := by
          have := hfind
          simp [getGuest, List.find?, hh] at this
          exact this.symm
        have hhead : h.id = r'.id := eq_of_beq hh
        have htail : t.map (fun g => if g.id == r'.id then r' else g) = t := by
          have hstep : ∀ g ∈ t, (if g.id == r'.id then r' else g) = g := by
            intro g hg
            have hne : ¬ (g.id == r'.id) = true := by
              intro hgid
              have h1 : g.id = r'.id := eq_of_beq hgid
              have h2 : h.id ∈ t.map (fun x => x.id) := by
                rw [hhead, ← h1]
                exact List.mem_map_of_mem _ hg
              exact (List.nodup_cons.mp hnd).1 h2
            simp [hne]
          exact (List.map_congr_left hstep).trans (List.map_id t)
        have hfh : f r' = f h := by rw [hf, hr]
        rw [List.map_cons, if_pos hh, htail, List.map_cons, hfh, List.map_cons]
      · have hfind' : getGuest t r'.id = some r := by
          simpa [getGuest, List.find?, hh] using hfind
        have hndt := (List.nodup_cons.mp hnd).2
        have := ih r r' hfind' hf hndt
        rw [List.map_cons, if_neg hh, List.map_cons, this, List.map_cons]

/-- `put` of a record whose key is already present, agreeing with the stored
record on `f`, leaves the `f`-image of the store unchanged. -/
theorem putRecord_map_of_found {α : Type} (f : GuestRecordDB → α)
    {s : List GuestRecordDB} {r r' : GuestRecordDB}
    (hfind : getGuest s r'.id = some r) (hf : f r' = f r)
    (hnd : (s.map (fun g => g.id)).Nodup) :
    (putRecord s r').map f = s.map f := by
  have hany : s.any (fun g => g.id == r'.id) = true := by
    refine List.any_eq_true.mpr ⟨r, getGuest_mem hfind, ?_⟩
    simp [getGuest_id hfind]
  unfold putRecord
  rw [hany]
  simp only [if_true]
  exact map_replace_of_found f s r r' hfind hf hnd

/-- One `markAsSynced` iteration changes neither the `updatedAt` image nor
the `id` image of the store. -/
theorem markSyncedStep_maps (now : Nat) (store : List GuestRecordDB) (i : String)
    (hnd : (store.map (fun g => g.id)).Nodup) :
    (markSyncedStep now store i).map (fun g => g.updatedAt) =
      store.map (fun g => g.updatedAt) ∧
    (markSyncedStep now store i).map (fun g => g.id) = store.map (fun g => g.id) := by
  unfold markSyncedStep
  cases hfind : getGuest store i with
  | none => exact ⟨rfl, rfl⟩
  | some r =>
      have hid : r.id = i := getGuest_id hfind
      rw [← hid] at hfind
      exact ⟨putRecord_map_of_found _ hfind rfl hnd, putRecord_map_of_found _ hfind rfl hnd⟩

/-- `markAsSynced` never changes any record's `updatedAt` (nor any id). -/
theorem markAsSynced_maps :
    ∀ (ids : List String) (store : List GuestRecordDB) (now : Nat),
      (store.map (fun g => g.id)).Nodup →
      (markAsSynced store ids now).map (fun g => g.updatedAt) =
        store.map (fun g => g.updatedAt) ∧
      (markAsSynced store ids now).map (fun g => g.id) = store.map (fun g => g.id) := by
  intro ids
  induction ids with
  | nil => intro store now hnd; exact ⟨rfl, rfl⟩
  | cons i ids ih =>
      intro store now hnd
      have hstep := markSyncedStep_maps now store i hnd
      have hnd' : ((markSyncedStep now store i).map (fun g => g.id)).Nodup := by
        rw [hstep.2]; exact hnd
      have hrec : markAsSynced store (i :: ids) now =
          markAsSynced (markSyncedStep now store i) ids now := rfl
      rw [hrec, (ih (markSyncedStep now store i) now hnd').1,
        (ih (markSyncedStep now store i) now hnd').2, hstep.1]
      exact ⟨rfl, hstep.2⟩

/-- `markAsError` never changes any record's `updatedAt`. -/
theorem markAsError_map_updatedAt (store : List GuestRecordDB) (i : String)
    (hnd : (store.map (fun g => g.id)).Nodup) :
    (markAsError store i).map (fun g => g.updatedAt) =
      store.map (fun g => g.updatedAt) := by
  unfold markAsError
  cases hfind : getGuest store i with
  | none => rfl
  | some r =>
      have hid : r.id = i := getGuest_id hfind
      rw [← hid] at hfind
      exact putRecord_map_of_found _ hfind rfl hnd

/-- Claim C5 (amended): `save`, `createCustom`, an import overwrite and the
migration overlay all rewrite the affected record's `updatedAt` (`save` and
`createCustom` to the current time, import to the incoming record's
timestamp, migration to the parsed legacy timestamp or the current time);
`markSynced` and `markError`, however, mutate only `syncStatus` /
`lastSyncedAt` and leave every `updatedAt` untouched, and reads never change
any record. -/
theorem updatedAt_mutation_profile :
    (∀ (store : List GuestRecordDB) (id : String) (u : GuestUpdate) (now : Nat)
        (rec : GuestRecordDB),
      (saveGuestRecord store id u now).1 = Except.ok rec → rec.updatedAt = now) ∧
    (∀ (store : List GuestRecordDB) (name : String) (side : Side) (now : Nat)
        (rand : String),
      (createCustomGuest store name side now rand).1.updatedAt = now) ∧
    (∀ (store : List GuestRecordDB) (res : ImportResult) (guest existing : GuestRecordDB),
      getGuest store guest.id = some existing → existing.updatedAt < guest.updatedAt →
        getGuest (importStep (store, res) guest).1 guest.id =
          some { guest with syncStatus := SyncStatus.pending }) ∧
    (∀ (now : Nat) (store : List GuestRecordDB) (id : String) (r : LegacyRecord)
        (existing : GuestRecordDB),
      getGuest store id = some existing →
        ∃ rec : GuestRecordDB,
          getGuest (migrateRecordStep now store (id, r)) id = some rec ∧
          rec.updatedAt = r.updatedAt.getD now) ∧
    (∀ (store : List GuestRecordDB) (ids : List String) (now : Nat),
      (store.map (fun g => g.id)).Nodup →
        (markAsSynced store ids now).map (fun g => g.updatedAt) =
          store.map (fun g => g.updatedAt)) ∧
    (∀ (store : List GuestRecordDB) (id : String),
      (store.map (fun g => g.id)).Nodup →
        (markAsError store id).map (fun g => g.updatedAt) =
          store.map (fun g => g.updatedAt)) := by
  refine ⟨?_, ?_, ?_, ?_, ?_, ?_⟩
  · intro store id u now rec h
    cases hfind : getGuest store id with
    | none => simp [saveGuestRecord, hfind] at h
    | some ex =>
        simp only [saveGuestRecord, hfind, Except.ok.injEq] at h
        rw [← h]
  · intro store name side now rand
    rfl
  · intro store res guest existing h hlt
    simp only [importStep, h, if_pos hlt]
    exact getGuest_putRecord store _
  · intro now store id r existing h
    have hid : existing.id = id := getGuest_id h
    refine ⟨{ existing with
        displayName := jsOrString r.displayName existing.displayName
        amountRiel := r.amountRiel
        paymentType := r.paymentType.getD PaymentType.cash
        bankType := r.bank.map (fun b => b.type)
        bankRef :=
          match r.bank with
          | some b => if b.ref = "" then none else some b.ref
          | none => none
        note := jsOrString r.note ""
        updatedAt := r.updatedAt.getD now
        syncStatus := SyncStatus.pending }, ?_, rfl⟩
    simp only [migrateRecordStep, h]
    rw [← hid]
    exact getGuest_putRecord store _
  · intro store ids now hnd
    exact (markAsSynced_maps ids store now hnd).1
  · intro store id hnd
    exact markAsError_map_updatedAt store id hnd

/-- Claim C5, counterexample to the claim as stated: `markError` mutates a
record (its `syncStatus` changes from `local` to `error`) without touching
its `updatedAt`, so not every mutating operation rewrites `updatedAt`. -/
theorem updatedAt_mutation_cex :
    markAsError [gRec "G1" none PaymentType.cash none none 5 SyncStatus.local] "G1" =
      [gRec "G1" none PaymentType.cash none none 5 SyncStatus.error] ∧
    (gRec "G1" none PaymentType.cash none none 5 SyncStatus.error).syncStatus ≠
      (gRec "G1" none PaymentType.cash none none 5 SyncStatus.local).syncStatus ∧
    (gRec "G1" none PaymentType.cash none none 5 SyncStatus.error).updatedAt =
      (gRec "G1" none PaymentType.cash none none 5 SyncStatus.local).updatedAt := by
  decide

theorem updatedAt_mutation_profile_witness :
    ((saveGuestRecord [gRec "G1" none PaymentType.cash none none 3 SyncStatus.local] "G1"
        GuestUpdate.empty 9).1 =
          Except.ok (gRec "G1" none PaymentType.cash none none 9 SyncStatus.pending) ∧
      (gRec "G1" none PaymentType.cash none none 9 SyncStatus.pending).updatedAt = 9) ∧
    (createCustomGuest [] "B" Side.bride 4 "xyz").1.updatedAt = 4 ∧
    (getGuest [gRec "G1" none PaymentType.cash none none 5 SyncStatus.local] "G1" =
        some (gRec "G1" none PaymentType.cash none none 5 SyncStatus.local) ∧
      (5 : Nat) < 9 ∧
      getGuest (importStep ([gRec "G1" none PaymentType.cash none none 5 SyncStatus.local],
          ⟨0, 0, 0⟩) (gRec "G1" none PaymentType.cash none none 9 SyncStatus.synced)).1 "G1" =
        some (gRec "G1" none PaymentType.cash none none 9 SyncStatus.pending)) ∧
    (∃ rec : GuestRecordDB,
      getGuest (migrateRecordStep 9 [gRec "G1" none PaymentType.cash none none 5 SyncStatus.local]
          ("G1", ⟨none, none, none, none, none, none⟩)) "G1" = some rec ∧
      rec.updatedAt = (⟨none, none, none, none, none, none⟩ : LegacyRecord).updatedAt.getD 9) ∧
    (markAsSynced [gRec "G1" none PaymentType.cash none none 5 SyncStatus.local] ["G1"] 9).map
        (fun g => g.updatedAt) =
      [gRec "G1" none PaymentType.cash none none 5 SyncStatus.local].map
        (fun g => g.updatedAt) ∧
    (markAsError [gRec "G1" none PaymentType.cash none none 5 SyncStatus.local] "G1").map
        (fun g => g.updatedAt) =
      [gRec "G1" none PaymentType.cash none none 5 SyncStatus.local].map
        (fun g => g.updatedAt) := by
  refine ⟨⟨rfl, ?_⟩, ?_, ⟨by decide, by decide, ?_⟩, ?_, ?_, ?_⟩
  · exact updatedAt_mutation_profile.1
      [gRec "G1" none PaymentType.cash none none 3 SyncStatus.local] "G1" GuestUpdate.empty 9
      (gRec "G1" none PaymentType.cash none none 9 SyncStatus.pending) rfl
  · exact updatedAt_mutation_profile.2.1 [] "B" Side.bride 4 "xyz"
  · exact updatedAt_mutation_profile.2.2.1
      [gRec "G1" none PaymentType.cash none none 5 SyncStatus.local] ⟨0, 0, 0⟩
      (gRec "G1" none PaymentType.cash none none 9 SyncStatus.synced)
      (gRec "G1" none PaymentType.cash none none 5 SyncStatus.local) (by decide) (by decide)
  · exact updatedAt_mutation_profile.2.2.2.1 9
      [gRec "G1" none PaymentType.cash none none 5 SyncStatus.local] "G1"
      ⟨none, none, none, none, none, none⟩
      (gRec "G1" none PaymentType.cash none none 5 SyncStatus.local) (by decide)
  · exact updatedAt_mutation_profile.2.2.2.2.1
      [gRec "G1" none PaymentType.cash none none 5 SyncStatus.local] ["G1"] 9 (by decide)
  · exact updatedAt_mutation_profile.2.2.2.2.2
      [gRec "G1" none PaymentType.cash none none 5 SyncStatus.local] "G1" (by decide)

/-- Claim C6, counterexample to the claim as stated: `save` performs no
bank-field validation, so a partial update that only flips `paymentType` to
`cash` succeeds and leaves the stale bank fields in place — the store
operations do not preserve the invariant. -/
theorem bank_fields_invariant_cex :
    (saveGuestRecord [gRec "G1" (some 100) PaymentType.bank (some BankType.ABA) (some "TX")
        10 SyncStatus.synced] "G1"
        { GuestUpdate.empty with paymentType := some PaymentType.cash } 20).1 =
      Except.ok (gRec "G1" (some 100) PaymentType.cash (some BankType.ABA) (some "TX")
        20 SyncStatus.pending) ∧
    (gRec "G1" (some 100) PaymentType.cash (some BankType.ABA) (some "TX")
        20 SyncStatus.pending).paymentType = PaymentType.cash ∧
    (gRec "G1" (some 100) PaymentType.cash (some BankType.ABA) (some "TX")
        20 SyncStatus.pending).bankType ≠ none :=
  ⟨rfl, rfl, by decide⟩

/-- Claim C6 (amended): the store itself does not enforce the bank-field
invariant on arbitrary partial updates (see the counterexample); what holds
is that every record created by `createCustom` satisfies it, and `save`
yields a record satisfying it whenever the update names `paymentType`,
`bankType` and `bankRef` together with coherent values — as the UI save path
always does. -/
theorem bank_fields_invariant_amended :
    (∀ (store : List GuestRecordDB) (name : String) (side : Side) (now : Nat)
        (rand : String),
      bankFieldsOk (createCustomGuest store name side now rand).1) ∧
    (∀ (store : List GuestRecordDB) (id : String) (u : GuestUpdate) (now : Nat)
        (rec : GuestRecordDB) (pt : PaymentType) (bt : Option BankType) (br : Option String),
      u.paymentType = some pt → u.bankType = some bt → u.bankRef = some br →
      (pt = PaymentType.cash → bt = none ∧ br = none) →
      (saveGuestRecord store id u now).1 = Except.ok rec → bankFieldsOk rec) := by
  constructor
  · intro store name side now rand _
    exact ⟨rfl, rfl⟩
  · intro store id u now rec pt bt br hpt hbt hbr hcoh hok
    cases hfind : getGuest store id with
    | none => simp [saveGuestRecord, hfind] at hok
    | some ex =>
        simp only [saveGuestRecord, hfind, Except.ok.injEq] at hok
        have hrpt : rec.paymentType = pt := by
          rw [← hok]; simp [applyUpdate, hpt]
        have hrbt : rec.bankType = bt := by
          rw [← hok]; simp [applyUpdate, hbt]
        have hrbr : rec.bankRef = br := by
          rw [← hok]; simp [applyUpdate, hbr]
        intro hcash
        rw [hrpt] at hcash
        rcases hcoh hcash with ⟨h1, h2⟩
        rw [hrbt, hrbr, h1, h2]
        exact ⟨rfl, rfl⟩

theorem bank_fields_invariant_witness :
    bankFieldsOk (createCustomGuest [] "B" Side.groom 4 "xyz").1 ∧
    bankFieldsOk (gRec "G1" (some 100) PaymentType.cash none none 20 SyncStatus.pending) :=
  ⟨bank_fields_invariant_amended.1 [] "B" Side.groom 4 "xyz",
   bank_fields_invariant_amended.2
     [gRec "G1" (some 100) PaymentType.bank (some BankType.ABA) (some "TX") 10
       SyncStatus.synced] "G1"
     { GuestUpdate.empty with
         paymentType := some PaymentType.cash
         bankType := some none
         bankRef := some none } 20
     (gRec "G1" (some 100) PaymentType.cash none none 20 SyncStatus.pending)
     PaymentType.cash none none rfl rfl rfl (fun _ => ⟨rfl, rfl⟩) rfl⟩

/-- Claim C7, counterexample to the claim as stated: `createCustom` checks
nothing against existing ids — when the store already holds a record whose id
equals the generated `CUSTOM_{now}_{rand}` string, the new record gets the
same id and the `put` silently overwrites the existing record (store size
unchanged). -/
theorem createCustom_fresh_id_cex :
    (createCustomGuest [gRec "CUSTOM_5_abc" (some 50) PaymentType.cash none none 3
        SyncStatus.pending] "Bob" Side.groom 5 "abc").1.id =
      (gRec "CUSTOM_5_abc" (some 50) PaymentType.cash none none 3 SyncStatus.pending).id ∧
    ((createCustomGuest [gRec "CUSTOM_5_abc" (some 50) PaymentType.cash none none 3
        SyncStatus.pending] "Bob" Side.groom 5 "abc").2).length = 1 := by
  exact ⟨by decide, by decide⟩

/-- Claim C7 (amended): the generated id is distinct from every existing id
exactly when the string `CUSTOM_{now}_{rand}` built from the call's clock
value and random suffix is not already a key of the store (no collision
check is performed); in that case the new record is appended and nothing is
overwritten. -/
theorem createCustom_fresh_id (store : List GuestRecordDB) (name : String) (side : Side)
    (now : Nat) (rand : String)
    (hfresh : ("CUSTOM_" ++ toString now ++ "_" ++ rand) ∉ store.map (fun g => g.id)) :
    (createCustomGuest store name side now rand).1.id ∉ store.map (fun g => g.id) ∧
    (createCustomGuest store name side now rand).2 =
      store ++ [(createCustomGuest store name side now rand).1] := by
  constructor
  · exact hfresh
  · have hany : (store.any fun g => g.id == ("CUSTOM_" ++ toString now ++ "_" ++ rand)) =
        false := by
      rw [List.any_eq_false]
      intro g hg hbeq
      exact hfresh (by rw [← eq_of_beq hbeq]; exact List.mem_map_of_mem _ hg)
    simp only [createCustomGuest, putRecord, hany, Bool.false_eq_true, if_false]

theorem createCustom_fresh_id_witness :
    ("CUSTOM_" ++ toString 5 ++ "_" ++ "abc") ∉
      ([gRec "G1" none PaymentType.cash none none 3 SyncStatus.local].map (fun g => g.id)) ∧
    (createCustomGuest [gRec "G1" none PaymentType.cash none none 3 SyncStatus.local]
        "Bob" Side.groom 5 "abc").1.id ∉
      ([gRec "G1" none PaymentType.cash none none 3 SyncStatus.local].map (fun g => g.id)) ∧
    (createCustomGuest [gRec "G1" none PaymentType.cash none none 3 SyncStatus.local]
        "Bob" Side.groom 5 "abc").2 =
      [gRec "G1" none PaymentType.cash none none 3 SyncStatus.local] ++
        [(createCustomGuest [gRec "G1" none PaymentType.cash none none 3 SyncStatus.local]
          "Bob" Side.groom 5 "abc").1] := by
  refine ⟨by decide, ?_, ?_⟩
  · exact (createCustom_fresh_id [gRec "G1" none PaymentType.cash none none 3 SyncStatus.local]
      "Bob" Side.groom 5 "abc" (by decide)).1
  · exact (createCustom_fresh_id [gRec "G1" none PaymentType.cash none none 3 SyncStatus.local]
      "Bob" Side.groom 5 "abc" (by decide)).2

/-- `jsRoundPct` is exactly rounding of the exact percentage value: for a
positive denominator, `(200c + n) / (2n)` equals `round (c / n * 100)` over
the rationals. -/
theorem jsRoundPct_eq_round (c n : Nat) :
    (jsRoundPct c (n + 1) : ℤ) = round ((c : ℚ) / ((n : ℚ) + 1) * 100) := by
  rw [round_eq]
  have key : (c : ℚ) / ((n : ℚ) + 1) * 100 + 1 / 2 =
      ((200 * c + (n + 1) : ℕ) : ℚ) / ((2 * (n + 1) : ℕ) : ℚ) := by
    have hn : ((n : ℚ) + 1) ≠ 0 := by positivity
    push_cast
    field_simp
    ring
  rw [key, Rat.floor_natCast_div_natCast]
  simp [jsRoundPct]

/-- Characterization of the `totals` accumulation loop as filter/map/sum over
the record list. -/
theorem foldl_totalsStep_char (gs : List GuestRecordDB) :
    ∀ acc : TotalsAcc,
      gs.foldl totalsStep acc =
        ⟨acc.totalCash + ((gs.filter (fun g => isContributor g &&
            (g.paymentType == PaymentType.cash))).map contribAmount).sum,
         acc.totalBank + ((gs.filter (fun g => isContributor g &&
            (g.paymentType == PaymentType.bank))).map contribAmount).sum,
         acc.cashCount + (gs.filter (fun g => isContributor g &&
            (g.paymentType == PaymentType.cash))).length,
         acc.bankCount + (gs.filter (fun g => isContributor g &&
            (g.paymentType == PaymentType.bank))).length⟩ := by
  induction gs with
  | nil => intro acc; simp
  | cons g gs ih =>
      intro acc
      rw [List.foldl_cons, ih (totalsStep acc g)]
      cases hamt : g.amountRiel with
      | none =>
          have hcontrib : isContributor g = false := by simp [isContributor, hamt]
          simp [totalsStep, hamt, hcontrib]
      | some a =>
          by_cases hpos : (0 : Int) < a
          · have hcontrib : isContributor g = true := by
              simp [isContributor, hamt, hpos]
            have hca : contribAmount g = a := by simp [contribAmount, hamt]
            cases hpt : g.paymentType with
            | cash =>
                simp [totalsStep, hamt, hpos, hpt, hcontrib, hca, List.filter_cons,
                  TotalsAcc.mk.injEq, add_assoc, add_comm, add_left_comm]
            | bank =>
                simp [totalsStep, hamt, hpos, hpt, hcontrib, hca, List.filter_cons,
                  TotalsAcc.mk.injEq, add_assoc, add_comm, add_left_comm]
          · have hcontrib : isContributor g = false := by
              simp [isContributor, hamt, hpos]
            simp [totalsStep, hamt, hpos, hcontrib]

/-- The two spellings of a count-guarded value agree. -/
theorem ite_pct_flip (x n : Nat) :
    (if 0 < n then x else 0) = (if n = 0 then 0 else x) := by
  rcases Nat.eq_zero_or_pos n with h | h
  · simp [h]
  · simp [h, Nat.pos_iff_ne_zero.mp h]

/-- Claim C9 (amended): over any record set, records with a strictly
positive amount accumulate into `totalCash` / `totalBank` by payment type
with matching counters; `grandTotal = totalCash + totalBank`,
`contributorCount = cashCount + bankCount`; each percentage is `Math.round`
applied to the double-precision (binary64) evaluation of
`(categoryCount / contributorCount) * 100` — `jsPercent`, not the exact
rounding of `100 * categoryCount / contributorCount` (`jsRoundPct`, shown
here equal to rounding of the exact rational, from which the program's
floats diverge at tie-adjacent inputs: see the counterexample) — and is `0`
when `contributorCount` is zero, no division fault being possible; on the
spec's example `[200000 cash, 150000 bank, null, 0]` the two agree and give
totals 200000 / 150000, grand total 350000, two contributors and 50 / 50
percent. -/
theorem totals_spec (gs : List GuestRecordDB) :
    (computeTotals gs).totalCash = ((gs.filter (fun g => isContributor g &&
        (g.paymentType == PaymentType.cash))).map contribAmount).sum ∧
    (computeTotals gs).totalBank = ((gs.filter (fun g => isContributor g &&
        (g.paymentType == PaymentType.bank))).map contribAmount).sum ∧
    (computeTotals gs).cashCount = (gs.filter (fun g => isContributor g &&
        (g.paymentType == PaymentType.cash))).length ∧
    (computeTotals gs).bankCount = (gs.filter (fun g => isContributor g &&
        (g.paymentType == PaymentType.bank))).length ∧
    (computeTotals gs).grandTotal =
      (computeTotals gs).totalCash + (computeTotals gs).totalBank ∧
    (computeTotals gs).contributorCount =
      (computeTotals gs).cashCount + (computeTotals gs).bankCount ∧
    (computeTotals gs).cashPercent =
      (if (computeTotals gs).contributorCount = 0 then 0
       else jsPercent (computeTotals gs).cashCount (computeTotals gs).contributorCount) ∧
    (computeTotals gs).bankPercent =
      (if (computeTotals gs).contributorCount = 0 then 0
       else jsPercent (computeTotals gs).bankCount (computeTotals gs).contributorCount) ∧
    (∀ c n : Nat, (jsRoundPct c (n + 1) : ℤ) = round ((c : ℚ) / ((n : ℚ) + 1) * 100)) ∧
    computeTotals [gRec "a" (some 200000) PaymentType.cash none none 1 SyncStatus.local,
      gRec "b" (some 150000) PaymentType.bank none none 1 SyncStatus.local,
      gRec "c" none PaymentType.cash none none 1 SyncStatus.local,
      gRec "d" (some 0) PaymentType.cash none none 1 SyncStatus.local] =
      ⟨200000, 150000, 1, 1, 350000, 2, 50, 50⟩ := by
  have hchar := foldl_totalsStep_char gs ⟨0, 0, 0, 0⟩
  refine ⟨?_, ?_, ?_, ?_, rfl, rfl, ?_, ?_, jsRoundPct_eq_round, by decide⟩
  · simp only [computeTotals]
    rw [hchar]
    simp
  · simp only [computeTotals]
    rw [hchar]
    simp
  · simp only [computeTotals]
    rw [hchar]
    simp
  · simp only [computeTotals]
    rw [hchar]
    simp
  · simp only [computeTotals]
    exact ite_pct_flip _ _
  · simp only [computeTotals]
    exact ite_pct_flip _ _

/-- Claim C9, counterexample to the claim's percentage formula as stated:
with 23 cash contributors out of 40, the program evaluates
`(23 / 40) * 100` in binary64 to `57.49999999999999...` and `Math.round`
gives 57, while the claimed exact rounding of `100 * 23 / 40 = 57.5` gives
58 — so the percentages are not `round(100 * categoryCount /
contributorCount)`. -/
theorem totals_percent_cex :
    (computeTotals
      (List.replicate 23 (gRec "c" (some 1) PaymentType.cash none none 1 SyncStatus.local) ++
       List.replicate 17 (gRec "b" (some 1) PaymentType.bank none none 1
         SyncStatus.local))).cashCount = 23 ∧
    (computeTotals
      (List.replicate 23 (gRec "c" (some 1) PaymentType.cash none none 1 SyncStatus.local) ++
       List.replicate 17 (gRec "b" (some 1) PaymentType.bank none none 1
         SyncStatus.local))).contributorCount = 40 ∧
    (computeTotals
      (List.replicate 23 (gRec "c" (some 1) PaymentType.cash none none 1 SyncStatus.local) ++
       List.replicate 17 (gRec "b" (some 1) PaymentType.bank none none 1
         SyncStatus.local))).cashPercent = 57 ∧
    (jsRoundPct 23 40 : ℤ) = round (((23 : ℕ) : ℚ) / (((39 : ℕ) : ℚ) + 1) * 100) ∧
    jsRoundPct 23 40 = 58 ∧
    (computeTotals
      (List.replicate 23 (gRec "c" (some 1) PaymentType.cash none none 1 SyncStatus.local) ++
       List.replicate 17 (gRec "b" (some 1) PaymentType.bank none none 1
         SyncStatus.local))).cashPercent ≠ jsRoundPct 23 40 :=
  ⟨by decide, by decide, by decide, jsRoundPct_eq_round 23 39, by decide, by decide⟩

/-- Claim C10: the store accepts a negative `amountRiel` through `save`
without validation; any record with a negative amount appears in neither the
pending partition (`null` or `0`) nor the recorded partition (`> 0`); and
the two partitions cover every record exactly when every amount is null or
non-negative. -/
theorem negative_amount_gap :
    (∀ (store : List GuestRecordDB) (id : String) (existing : GuestRecordDB) (now : Nat)
        (a : Int), a < 0 → getGuest store id = some existing →
      ∃ rec : GuestRecordDB,
        (saveGuestRecord store id
          { GuestUpdate.empty with amountRiel := some (some a) } now).1 = Except.ok rec ∧
        rec.amountRiel = some a) ∧
    (∀ (gs : List GuestRecordDB) (g : GuestRecordDB) (a : Int),
      g ∈ gs → g.amountRiel = some a → a < 0 →
        g ∉ pendingGuests gs ∧ g ∉ recordedGuests gs) ∧
    (∀ gs : List GuestRecordDB,
      (∀ g ∈ gs, g ∈ pendingGuests gs ∨ g ∈ recordedGuests gs) ↔
      (∀ g ∈ gs, ∀ a : Int, g.amountRiel = some a → 0 ≤ a)) := by
  refine ⟨?_, ?_, ?_⟩
  · intro store id existing now a _ hfind
    refine ⟨{ applyUpdate existing
        { GuestUpdate.empty with amountRiel := some (some a) } with
        id := id, updatedAt := now, syncStatus := SyncStatus.pending }, ?_, ?_⟩
    · simp only [saveGuestRecord, hfind]
    · simp [applyUpdate]
  · intro gs g a hmem hamt hneg
    constructor
    · intro hp
      have := (List.mem_filter.mp hp).2
      simp [hamt] at this
      omega
    · intro hr
      have := (List.mem_filter.mp hr).2
      simp [hamt] at this
      omega
  · intro gs
    constructor
    · intro hcov g hg a hamt
      rcases hcov g hg with hp | hr
      · have := (List.mem_filter.mp hp).2
        simp [hamt] at this
        omega
      · have := (List.mem_filter.mp hr).2
        simp [hamt] at this
        omega
    · intro hpos g hg
      cases hamt : g.amountRiel with
      | none =>
          left
          exact List.mem_filter.mpr ⟨hg, by simp [pendingGuests, hamt]⟩
      | some a =>
          have ha := hpos g hg a hamt
          rcases eq_or_lt_of_le ha with heq | hlt
          · left
            refine List.mem_filter.mpr ⟨hg, ?_⟩
            simp [pendingGuests, hamt, ← heq]
          · right
            refine List.mem_filter.mpr ⟨hg, ?_⟩
            simp [recordedGuests, hamt, hlt]

theorem negative_amount_gap_witness :
    ((-5 : Int) < 0 ∧
     getGuest [gRec "G1" none PaymentType.cash none none 3 SyncStatus.local] "G1" =
       some (gRec "G1" none PaymentType.cash none none 3 SyncStatus.local) ∧
     ∃ rec : GuestRecordDB,
       (saveGuestRecord [gRec "G1" none PaymentType.cash none none 3 SyncStatus.local] "G1"
         { GuestUpdate.empty with amountRiel := some (some (-5)) } 9).1 = Except.ok rec ∧
       rec.amountRiel = some (-5)) ∧
    (gRec "G2" (some (-5)) PaymentType.cash none none 3 SyncStatus.local ∈
       [gRec "G2" (some (-5)) PaymentType.cash none none 3 SyncStatus.local] ∧
     gRec "G2" (some (-5)) PaymentType.cash none none 3 SyncStatus.local ∉
       pendingGuests [gRec "G2" (some (-5)) PaymentType.cash none none 3 SyncStatus.local] ∧
     gRec "G2" (some (-5)) PaymentType.cash none none 3 SyncStatus.local ∉
       recordedGuests [gRec "G2" (some (-5)) PaymentType.cash none none 3 SyncStatus.local]) ∧
    ((∀ g ∈ [gRec "G3" (some 7) PaymentType.cash none none 3 SyncStatus.local],
        g ∈ pendingGuests [gRec "G3" (some 7) PaymentType.cash none none 3 SyncStatus.local] ∨
        g ∈ recordedGuests [gRec "G3" (some 7) PaymentType.cash none none 3 SyncStatus.local]) ↔
     (∀ g ∈ [gRec "G3" (some 7) PaymentType.cash none none 3 SyncStatus.local],
        ∀ a : Int, g.amountRiel = some a → 0 ≤ a)) := by
  refine ⟨⟨by decide, by decide, ?_⟩, ⟨by decide, ?_⟩, ?_⟩
  · exact negative_amount_gap.1
      [gRec "G1" none PaymentType.cash none none 3 SyncStatus.local] "G1"
      (gRec "G1" none PaymentType.cash none none 3 SyncStatus.local) 9 (-5)
      (by decide) (by decide)
  · exact negative_amount_gap.2.1
      [gRec "G2" (some (-5)) PaymentType.cash none none 3 SyncStatus.local]
      (gRec "G2" (some (-5)) PaymentType.cash none none 3 SyncStatus.local) (-5)
      (by decide) rfl (by decide)
  · exact negative_amount_gap.2.2
      [gRec "G3" (some 7) PaymentType.cash none none 3 SyncStatus.local]
